import Mathlib

/-
Verification of the refiller service: a two-step HTTP workflow
(login to obtain a session cookie, then request a medication refill)
plus TOML configuration loading and an orchestrating main flow.

The embedding is shallow: each Python function of the repository is
translated into a Lean function over explicit inputs.  Network I/O is
modelled by passing the outcome of each POST (either a connection-level
error or an `HttpResponse`) as an argument; the orchestrator returns the
ordered list of observable events (client construction, log lines, the
calls it makes on the client, and resource release) together with the
exception, if any, escaping it.
-/

namespace Refiller

/-- A TOML value as produced by `tomllib.load`, restricted to the
constructors the configuration contract exercises (strings, integers,
booleans, arrays and tables). -/
inductive TomlValue where
  | str (s : String)
  | int (n : Int)
  | bool (b : Bool)
  | arr (xs : List TomlValue)
  | table (kvs : List (String × TomlValue))
deriving Repr

/-- Python truthiness (`bool(v)`) of a TOML value: empty strings, zero,
`false` and empty collections are falsy, everything else truthy.
`Config.from_toml` tests `not config[field]`, i.e. the negation of this. -/
def TomlValue.truthy : TomlValue → Bool
  | .str s => !(s == "")
  | .int n => n != 0
  | .bool b => b
  | .arr xs => !xs.isEmpty
  | .table kvs => !kvs.isEmpty

/-- A parsed TOML document: the top-level table, as a key/value list. -/
def Document := List (String × TomlValue)

/-- Key lookup in a parsed TOML table (Python `config[field]` /
`field in config`; `tomllib` never produces duplicate keys, and first
match mirrors dict lookup). -/
def lookupField : List (String × TomlValue) → String → Option TomlValue
  | [], _ => none
  | (k, v) :: rest, f => if k = f then some v else lookupField rest f

/-- The five required configuration fields, in source order. -/
def requiredFields : List String :=
  ["username", "password", "base_url", "med_id", "office"]

/-- The predicate of the list comprehension in `Config.from_toml`:
`field not in config or not config[field]`. -/
def fieldMissingOrEmpty (config : List (String × TomlValue)) (f : String) : Bool :=
  match lookupField config f with
  | none => true
  | some v => !v.truthy

/-- The list comprehension `missing_or_empty_fields` of `Config.from_toml`:
required fields that are absent or falsy, in declaration order. -/
def missingOrEmptyFields (config : List (String × TomlValue)) : List String :=
  requiredFields.filter (fieldMissingOrEmpty config)

/-- The exceptions `Config.from_toml` raises: `FileNotFoundError` for a
missing file and `ValueError` for missing or empty fields. -/
inductive ConfigError where
  | fileNotFound (msg : String)
  | valueError (msg : String)
deriving Repr, DecidableEq

/-- The `Config` dataclass.  The Python annotations say `str`, but a
dataclass performs no runtime type check, so each field holds whatever
value the TOML document supplied. -/
structure Config where
  username : TomlValue
  password : TomlValue
  base_url : TomlValue
  med_id : TomlValue
  office : TomlValue
deriving Repr

/-- `Config.from_toml`.  The file argument is `none` when
`config_file.exists()` is false, otherwise the parsed document.  When the
missing-or-empty check passes, every required key is present, so the
`.getD` defaults are unreachable (they mirror the fact that
`config["username"]` cannot raise after the check). -/
def Config.from_toml (file : Option (List (String × TomlValue))) (path : String) :
    Except ConfigError Config :=
  match file with
  | none => .error (.fileNotFound ("Config file not found at " ++ path))
  | some config =>
    let missing := missingOrEmptyFields config
    if missing.isEmpty then
      .ok { username := (lookupField config "username").getD (.str "")
            password := (lookupField config "password").getD (.str "")
            base_url := (lookupField config "base_url").getD (.str "")
            med_id := (lookupField config "med_id").getD (.str "")
            office := (lookupField config "office").getD (.str "") }
    else
      .error (.valueError
        ("Missing or empty required fields in config file: "
          ++ String.intercalate ", " missing))

/-- An HTTP response as the client observes it: status code, reason
phrase and response headers. -/
structure HttpResponse where
  status : Nat
  reason : String
  headers : List (String × String)
deriving Repr

/-- Header lookup, `response.headers.get(name)`. -/
def getHeader : List (String × String) → String → Option String
  | [], _ => none
  | (k, v) :: rest, name => if k = name then some v else getHeader rest name

/-- The exceptions the client can raise: `aiohttp.ClientResponseError`
from `raise_for_status` (status and reason), Python `ValueError`, and
connection-level `aiohttp.ClientError` failures. -/
inductive ClientError where
  | httpError (status : Nat) (message : String)
  | valueError (msg : String)
  | networkError (msg : String)
deriving Repr, DecidableEq

/-- Python `str(e)` for a client exception, as interpolated into the
orchestrator's log line. -/
def ClientError.str : ClientError → String
  | .httpError status message => toString status ++ ", message=" ++ message
  | .valueError msg => msg
  | .networkError msg => msg

/-- `response.raise_for_status()`: raises `ClientResponseError` exactly
when the status is 400 or above. -/
def raise_for_status (r : HttpResponse) : Except ClientError Unit :=
  if 400 ≤ r.status then .error (.httpError r.status r.reason) else .ok ()

namespace RefillerClient

/-- `RefillerClient.login`, as a function of the outcome of the POST to
`{base_url}/login` (connection error or response).  On a response:
`raise_for_status`, then read `Set-Cookie`; `if not cookie` (absent or
empty string) raise `ValueError`, else return the raw header value. -/
def login (postResult : Except ClientError HttpResponse) : Except ClientError String :=
  match postResult with
  | .error e => .error e
  | .ok response =>
    match raise_for_status response with
    | .error e => .error e
    | .ok _ =>
      match getHeader response.headers "Set-Cookie" with
      | none => .error (.valueError "Login failed: No session cookie received")
      | some cookie =>
        if cookie = "" then
          .error (.valueError "Login failed: No session cookie received")
        else
          .ok cookie

/-- `RefillerClient.request_refill`, as a function of the outcome of the
POST to `{base_url}/msgs/newmsg`: `raise_for_status`, then return
`response.status == 200`. -/
def request_refill (postResult : Except ClientError HttpResponse) : Except ClientError Bool :=
  match postResult with
  | .error e => .error e
  | .ok response =>
    match raise_for_status response with
    | .error e => .error e
    | .ok _ => .ok (response.status == 200)

end RefillerClient

/-- Observable events of one run of `main`, in order: log lines, client
construction, the two client calls with their exact arguments, and the
`close` of the session. -/
inductive Event where
  | logInfo (msg : String)
  | logError (msg : String)
  | constructClient (base_url : TomlValue)
  | loginCall (username password office : TomlValue)
  | refillCall (cookie : String) (med : TomlValue)
  | closeCall
deriving Repr

/-- Whether an event is the `close` of the session client. -/
def Event.isClose : Event → Bool
  | .closeCall => true
  | _ => false

/-- `main` of `main.py`.  Inputs: the configuration file (as for
`Config.from_toml`) and the outcomes of the login and refill POSTs.
Output: the ordered event trace and the exception escaping `main`, if
any.  `Config.from_toml` and the `RefillerClient` construction happen
before the `try` block, so a `ConfigError` escapes with nothing cleaned
up; inside the `try`, any client exception is caught, logged with the
`"Login failed: "` template, and the `finally` block closes the client
on every path. -/
def main (file : Option (List (String × TomlValue))) (path : String)
    (loginResult refillResult : Except ClientError HttpResponse) :
    List Event × Except ConfigError Unit :=
  let startLog := Event.logInfo "💊 Starting refiller service..."
  match Config.from_toml file path with
  | .error e => ([startLog], .error e)
  | .ok config =>
    let pre := [startLog,
      Event.constructClient config.base_url,
      Event.logInfo "🔐 Logging in to retrieve session cookie...",
      Event.loginCall config.username config.password config.office]
    match RefillerClient.login loginResult with
    | .error e =>
      (pre ++ [Event.logError ("Login failed: " ++ ClientError.str e),
               Event.closeCall], .ok ())
    | .ok cookie =>
      let pre2 := pre ++
        [Event.logInfo "🍪 Login successful, requesting medication refill...",
         Event.refillCall cookie config.med_id]
      match RefillerClient.request_refill refillResult with
      | .error e =>
        (pre2 ++ [Event.logError ("Login failed: " ++ ClientError.str e),
                  Event.closeCall], .ok ())
      | .ok success =>
        if success then
          (pre2 ++ [Event.logInfo "✅ Medication refill request successful!",
                    Event.closeCall], .ok ())
        else
          (pre2 ++ [Event.logError "❌ Medication refill request failed...",
                    Event.closeCall], .ok ())

/-- Helper: a credential returned by `login` is never the empty string,
because the `if not cookie` branch rejects it. -/
theorem login_ok_nonempty (postResult : Except Refiller.ClientError Refiller.HttpResponse)
    (c : String) (h : Refiller.RefillerClient.login postResult = Except.ok c) :
    c ≠ "" := by
  unfold Refiller.RefillerClient.login at h
  cases postResult with
  | error e => simp at h
  | ok r =>
    simp only [Refiller.raise_for_status] at h
    split at h
    · simp at h
    · cases hdr : Refiller.getHeader r.headers "Set-Cookie" with
      | none => rw [hdr] at h; simp at h
      | some cookie =>
        rw [hdr] at h
        by_cases hce : cookie = ""
        · simp [hce] at h
        · simp only [hce, if_false, Except.ok.injEq] at h
          rw [← h]
          exact hce

/-- C1: on a response to the refill POST, `request_refill` fails with the
HTTP error carrying the status and reason exactly when the status is 400
or above; below 400 it returns `true` if and only if the status is
exactly 200, and `false` for any other success-range status. -/
theorem C1_request_refill_strict_200 (r : Refiller.HttpResponse) :
    (400 ≤ r.status →
      Refiller.RefillerClient.request_refill (Except.ok r)
        = Except.error (Refiller.ClientError.httpError r.status r.reason)) ∧
    (r.status < 400 →
      (Refiller.RefillerClient.request_refill (Except.ok r) = Except.ok true ↔ r.status = 200) ∧
      (r.status ≠ 200 →
        Refiller.RefillerClient.request_refill (Except.ok r) = Except.ok false)) := by
  unfold Refiller.RefillerClient.request_refill Refiller.raise_for_status
  constructor
  · intro h
    simp [h]
  · intro h
    have hlt : ¬ 400 ≤ r.status := by omega
    refine ⟨?_, ?_⟩
    · simp [hlt]
    · intro hne
      simp [hlt, hne]

theorem C1_witness :
    400 ≤ 404 ∧
    Refiller.RefillerClient.request_refill
        (Except.ok { status := 404, reason := "Not Found", headers := [] })
      = Except.error (Refiller.ClientError.httpError 404 "Not Found") ∧
    201 < 400 ∧
    Refiller.RefillerClient.request_refill
        (Except.ok { status := 201, reason := "Created", headers := [] })
      = Except.ok false :=
  ⟨by decide,
   (C1_request_refill_strict_200
     { status := 404, reason := "Not Found", headers := [] }).1 (by decide),
   by decide,
   ((C1_request_refill_strict_200
     { status := 201, reason := "Created", headers := [] }).2 (by decide)).2 (by decide)⟩

/-- C2 counterexample: a 301 response (non-2xx) to the login POST that
carries a `Set-Cookie` header does not make `login` fail — `login`
returns the cookie, refuting "non-2xx → HttpError". -/
theorem C2_counterexample :
    Refiller.RefillerClient.login
        (Except.ok { status := 301, reason := "Moved Permanently",
                     headers := [("Set-Cookie", "s=1")] })
      = Except.ok "s=1" := by
  rfl

/-- C2 (amended): `login` fails with the HTTP error carrying the status
and reason exactly when the status is 400 or above; statuses below 400,
including 3xx redirects, never produce an HTTP error (the call proceeds
to the cookie check instead). -/
theorem C2_login_http_error_iff_ge_400 (r : Refiller.HttpResponse) :
    (400 ≤ r.status →
      Refiller.RefillerClient.login (Except.ok r)
        = Except.error (Refiller.ClientError.httpError r.status r.reason)) ∧
    (r.status < 400 → ∀ s m,
      Refiller.RefillerClient.login (Except.ok r)
        ≠ Except.error (Refiller.ClientError.httpError s m)) := by
  unfold Refiller.RefillerClient.login Refiller.raise_for_status
  constructor
  · intro h
    simp [h]
  · intro h s m
    have hlt : ¬ 400 ≤ r.status := by omega
    simp only [hlt, if_false]
    cases hdr : Refiller.getHeader r.headers "Set-Cookie" with
    | none => simp
    | some cookie => by_cases hce : cookie = "" <;> simp [hce]

theorem C2_witness :
    400 ≤ 401 ∧
    Refiller.RefillerClient.login
        (Except.ok { status := 401, reason := "Unauthorized", headers := [] })
      = Except.error (Refiller.ClientError.httpError 401 "Unauthorized") ∧
    301 < 400 ∧
    Refiller.RefillerClient.login
        (Except.ok { status := 301, reason := "Moved", headers := [] })
      ≠ Except.error (Refiller.ClientError.httpError 301 "Moved") :=
  ⟨by decide,
   (C2_login_http_error_iff_ge_400
     { status := 401, reason := "Unauthorized", headers := [] }).1 (by decide),
   by decide,
   (C2_login_http_error_iff_ge_400
     { status := 301, reason := "Moved", headers := [] }).2 (by decide) 301 "Moved"⟩

/-- C5 counterexample: on a 200 response with no `Set-Cookie` header,
`login` does fail rather than return a credential, but the error message
is "Login failed: No session cookie received", not the
"no session cookie received" the claim quotes. -/
theorem C5_counterexample :
    Refiller.RefillerClient.login
        (Except.ok { status := 200, reason := "OK", headers := [] })
      = Except.error
          (Refiller.ClientError.valueError "Login failed: No session cookie received") ∧
    "Login failed: No session cookie received" ≠ "no session cookie received" := by
  constructor
  · rfl
  · decide

/-- C5 (amended): on every response to the login POST whose status passes
`raise_for_status` (below 400) but whose `Set-Cookie` header is absent or
the empty string, `login` fails with the `ValueError` whose message is
"Login failed: No session cookie received" rather than returning a
credential. -/
theorem C5_no_cookie_error (r : Refiller.HttpResponse)
    (hs : r.status < 400)
    (hc : Refiller.getHeader r.headers "Set-Cookie" = none ∨
          Refiller.getHeader r.headers "Set-Cookie" = some "") :
    Refiller.RefillerClient.login (Except.ok r)
      = Except.error
          (Refiller.ClientError.valueError "Login failed: No session cookie received") := by
  unfold Refiller.RefillerClient.login Refiller.raise_for_status
  have hlt : ¬ 400 ≤ r.status := by omega
  simp only [hlt, if_false]
  cases hc with
  | inl h => simp [h]
  | inr h => simp [h]

theorem C5_witness :
    (200 : Nat) < 400 ∧
    Refiller.getHeader ([] : List (String × String)) "Set-Cookie" = none ∧
    Refiller.RefillerClient.login
        (Except.ok { status := 200, reason := "OK", headers := [] })
      = Except.error
          (Refiller.ClientError.valueError "Login failed: No session cookie received") :=
  ⟨by decide, by decide,
   C5_no_cookie_error { status := 200, reason := "OK", headers := [] }
     (by decide) (Or.inl (by decide))⟩

/-- C6: on every response to the login POST with a 2xx status and a
non-empty `Set-Cookie` header, `login` returns exactly the raw header
value, unmodified. -/
theorem C6_cookie_verbatim (r : Refiller.HttpResponse) (c : String)
    (h2 : 200 ≤ r.status) (h3 : r.status ≤ 299)
    (hc : Refiller.getHeader r.headers "Set-Cookie" = some c) (hne : c ≠ "") :
    Refiller.RefillerClient.login (Except.ok r) = Except.ok c := by
  unfold Refiller.RefillerClient.login Refiller.raise_for_status
  have hlt : ¬ 400 ≤ r.status := by omega
  simp [hlt, hc, hne]

theorem C6_witness :
    200 ≤ 200 ∧ 200 ≤ 299 ∧
    Refiller.getHeader [("Set-Cookie", "session_id=abc123")] "Set-Cookie"
      = some "session_id=abc123" ∧
    "session_id=abc123" ≠ "" ∧
    Refiller.RefillerClient.login
        (Except.ok { status := 200, reason := "OK",
                     headers := [("Set-Cookie", "session_id=abc123")] })
      = Except.ok "session_id=abc123" :=
  ⟨by decide, by decide, by decide, by decide,
   C6_cookie_verbatim
     { status := 200, reason := "OK",
       headers := [("Set-Cookie", "session_id=abc123")] }
     "session_id=abc123" (by decide) (by decide) (by decide) (by decide)⟩

/-- C7: loading fails exactly when some required field is absent or falsy,
with an error message listing every such field (the full filter of the
required-field list, comma-joined, not just the first); and when the five
fields are present as non-empty strings, loading succeeds and the values
round-trip into the `Config` exactly as supplied. -/
theorem C7_config_validation :
    (∀ (doc : List (String × Refiller.TomlValue)) (path : String),
      Refiller.missingOrEmptyFields doc ≠ [] →
      Refiller.Config.from_toml (some doc) path
        = Except.error (Refiller.ConfigError.valueError
            ("Missing or empty required fields in config file: "
              ++ String.intercalate ", " (Refiller.missingOrEmptyFields doc)))) ∧
    (∀ (doc : List (String × Refiller.TomlValue)) (f : String),
      f ∈ Refiller.missingOrEmptyFields doc ↔
        f ∈ Refiller.requiredFields ∧ Refiller.fieldMissingOrEmpty doc f = true) ∧
    (∀ (doc : List (String × Refiller.TomlValue)) (path : String) (u p b m o : String),
      Refiller.lookupField doc "username" = some (.str u) → u ≠ "" →
      Refiller.lookupField doc "password" = some (.str p) → p ≠ "" →
      Refiller.lookupField doc "base_url" = some (.str b) → b ≠ "" →
      Refiller.lookupField doc "med_id" = some (.str m) → m ≠ "" →
      Refiller.lookupField doc "office" = some (.str o) → o ≠ "" →
      Refiller.Config.from_toml (some doc) path
        = Except.ok { username := .str u, password := .str p, base_url := .str b,
                      med_id := .str m, office := .str o }) := by
  refine ⟨?_, ?_, ?_⟩
  · intro doc path h
    have he : (Refiller.missingOrEmptyFields doc).isEmpty = false := by
      cases hm : Refiller.missingOrEmptyFields doc with
      | nil => exact absurd hm h
      | cons a l => rfl
    simp [Refiller.Config.from_toml, he]
  · intro doc f
    simp [Refiller.missingOrEmptyFields, List.mem_filter]
  · intro doc path u p b m o hu hu2 hp hp2 hb hb2 hm hm2 ho ho2
    have e1 : Refiller.fieldMissingOrEmpty doc "username" = false := by
      simp [Refiller.fieldMissingOrEmpty, hu, Refiller.TomlValue.truthy, hu2]
    have e2 : Refiller.fieldMissingOrEmpty doc "password" = false := by
      simp [Refiller.fieldMissingOrEmpty, hp, Refiller.TomlValue.truthy, hp2]
    have e3 : Refiller.fieldMissingOrEmpty doc "base_url" = false := by
      simp [Refiller.fieldMissingOrEmpty, hb, Refiller.TomlValue.truthy, hb2]
    have e4 : Refiller.fieldMissingOrEmpty doc "med_id" = false := by
      simp [Refiller.fieldMissingOrEmpty, hm, Refiller.TomlValue.truthy, hm2]
    have e5 : Refiller.fieldMissingOrEmpty doc "office" = false := by
      simp [Refiller.fieldMissingOrEmpty, ho, Refiller.TomlValue.truthy, ho2]
    have hnil : Refiller.missingOrEmptyFields doc = [] := by
      simp [Refiller.missingOrEmptyFields, Refiller.requiredFields,
        List.filter, e1, e2, e3, e4, e5]
    simp [Refiller.Config.from_toml, hnil, hu, hp, hb, hm, ho]

theorem C7_witness :
    Refiller.missingOrEmptyFields
        [("username", Refiller.TomlValue.str "u"),
         ("base_url", Refiller.TomlValue.str "http://x"),
         ("med_id", Refiller.TomlValue.str "aspirin"),
         ("office", Refiller.TomlValue.str "")] ≠ [] ∧
    Refiller.Config.from_toml
        (some [("username", Refiller.TomlValue.str "u"),
               ("base_url", Refiller.TomlValue.str "http://x"),
               ("med_id", Refiller.TomlValue.str "aspirin"),
               ("office", Refiller.TomlValue.str "")]) "cfg.toml"
      = Except.error (Refiller.ConfigError.valueError
          "Missing or empty required fields in config file: password, office") ∧
    Refiller.Config.from_toml
        (some [("username", Refiller.TomlValue.str "u"),
               ("password", Refiller.TomlValue.str "p"),
               ("base_url", Refiller.TomlValue.str "http://x"),
               ("med_id", Refiller.TomlValue.str "aspirin"),
               ("office", Refiller.TomlValue.str "o1")]) "cfg.toml"
      = Except.ok { username := Refiller.TomlValue.str "u",
                    password := Refiller.TomlValue.str "p",
                    base_url := Refiller.TomlValue.str "http://x",
                    med_id := Refiller.TomlValue.str "aspirin",
                    office := Refiller.TomlValue.str "o1" } :=
  ⟨by decide,
   (C7_config_validation.1
      [("username", Refiller.TomlValue.str "u"),
       ("base_url", Refiller.TomlValue.str "http://x"),
       ("med_id", Refiller.TomlValue.str "aspirin"),
       ("office", Refiller.TomlValue.str "")] "cfg.toml" (by decide)).trans (by rfl),
   C7_config_validation.2.2
     [("username", Refiller.TomlValue.str "u"),
      ("password", Refiller.TomlValue.str "p"),
      ("base_url", Refiller.TomlValue.str "http://x"),
      ("med_id", Refiller.TomlValue.str "aspirin"),
      ("office", Refiller.TomlValue.str "o1")] "cfg.toml"
     "u" "p" "http://x" "aspirin" "o1"
     rfl (by decide) rfl (by decide) rfl (by decide) rfl (by decide) rfl (by decide)⟩

/-- C10: `Config.from_toml` performs no type validation — any truthy TOML
values (integers, booleans, arrays, tables alike) for the five required
fields are accepted and stored in the `Config` unchanged; and any falsy
value is classified missing-or-empty exactly as an absent key is. -/
theorem C10_no_type_validation :
    (∀ (doc : List (String × Refiller.TomlValue)) (path : String)
        (u p b m o : Refiller.TomlValue),
      Refiller.lookupField doc "username" = some u → u.truthy = true →
      Refiller.lookupField doc "password" = some p → p.truthy = true →
      Refiller.lookupField doc "base_url" = some b → b.truthy = true →
      Refiller.lookupField doc "med_id" = some m → m.truthy = true →
      Refiller.lookupField doc "office" = some o → o.truthy = true →
      Refiller.Config.from_toml (some doc) path
        = Except.ok { username := u, password := p, base_url := b,
                      med_id := m, office := o }) ∧
    (∀ (doc : List (String × Refiller.TomlValue)) (f : String)
        (v : Refiller.TomlValue),
      Refiller.lookupField doc f = some v → v.truthy = false →
      Refiller.fieldMissingOrEmpty doc f = true) ∧
    (∀ (doc : List (String × Refiller.TomlValue)) (f : String),
      Refiller.lookupField doc f = none →
      Refiller.fieldMissingOrEmpty doc f = true) := by
  refine ⟨?_, ?_, ?_⟩
  · intro doc path u p b m o hu hu2 hp hp2 hb hb2 hm hm2 ho ho2
    have e1 : Refiller.fieldMissingOrEmpty doc "username" = false := by
      simp [Refiller.fieldMissingOrEmpty, hu, hu2]
    have e2 : Refiller.fieldMissingOrEmpty doc "password" = false := by
      simp [Refiller.fieldMissingOrEmpty, hp, hp2]
    have e3 : Refiller.fieldMissingOrEmpty doc "base_url" = false := by
      simp [Refiller.fieldMissingOrEmpty, hb, hb2]
    have e4 : Refiller.fieldMissingOrEmpty doc "med_id" = false := by
      simp [Refiller.fieldMissingOrEmpty, hm, hm2]
    have e5 : Refiller.fieldMissingOrEmpty doc "office" = false := by
      simp [Refiller.fieldMissingOrEmpty, ho, ho2]
    have hnil : Refiller.missingOrEmptyFields doc = [] := by
      simp [Refiller.missingOrEmptyFields, Refiller.requiredFields,
        List.filter, e1, e2, e3, e4, e5]
    simp [Refiller.Config.from_toml, hnil, hu, hp, hb, hm, ho]
  · intro doc f v hv ht
    simp [Refiller.fieldMissingOrEmpty, hv, ht]
  · intro doc f hn
    simp [Refiller.fieldMissingOrEmpty, hn]

theorem C10_witness :
    Refiller.Config.from_toml
        (some [("username", Refiller.TomlValue.int 42),
               ("password", Refiller.TomlValue.bool true),
               ("base_url", Refiller.TomlValue.arr [Refiller.TomlValue.str "x"]),
               ("med_id", Refiller.TomlValue.table [("k", Refiller.TomlValue.str "v")]),
               ("office", Refiller.TomlValue.str "o1")]) "cfg.toml"
      = Except.ok { username := Refiller.TomlValue.int 42,
                    password := Refiller.TomlValue.bool true,
                    base_url := Refiller.TomlValue.arr [Refiller.TomlValue.str "x"],
                    med_id := Refiller.TomlValue.table [("k", Refiller.TomlValue.str "v")],
                    office := Refiller.TomlValue.str "o1" } ∧
    Refiller.fieldMissingOrEmpty [("username", Refiller.TomlValue.int 0)] "username" = true ∧
    Refiller.fieldMissingOrEmpty [("username", Refiller.TomlValue.int 0)] "password" = true :=
  ⟨C10_no_type_validation.1
     [("username", Refiller.TomlValue.int 42),
      ("password", Refiller.TomlValue.bool true),
      ("base_url", Refiller.TomlValue.arr [Refiller.TomlValue.str "x"]),
      ("med_id", Refiller.TomlValue.table [("k", Refiller.TomlValue.str "v")]),
      ("office", Refiller.TomlValue.str "o1")] "cfg.toml"
     (Refiller.TomlValue.int 42) (Refiller.TomlValue.bool true)
     (Refiller.TomlValue.arr [Refiller.TomlValue.str "x"])
     (Refiller.TomlValue.table [("k", Refiller.TomlValue.str "v")])
     (Refiller.TomlValue.str "o1")
     rfl rfl rfl rfl rfl rfl rfl rfl rfl rfl,
   C10_no_type_validation.2.1
     [("username", Refiller.TomlValue.int 0)] "username"
     (Refiller.TomlValue.int 0) rfl rfl,
   C10_no_type_validation.2.2
     [("username", Refiller.TomlValue.int 0)] "password" rfl⟩

/-- C3: in every run of `main`, a `request_refill` call appears in the
trace only when `login` returned exactly that cookie (passed verbatim),
and a returned cookie is never empty; hence if `login` fails in any way,
`request_refill` is never invoked. -/
theorem C3_refill_only_after_login (file : Option (List (String × Refiller.TomlValue)))
    (path : String) (lr rr : Except Refiller.ClientError Refiller.HttpResponse)
    (cookie : String) (med : Refiller.TomlValue)
    (h : Refiller.Event.refillCall cookie med ∈ (Refiller.main file path lr rr).1) :
    Refiller.RefillerClient.login lr = Except.ok cookie ∧ cookie ≠ "" := by
  unfold Refiller.main at h
  cases hc : Refiller.Config.from_toml file path with
  | error e => rw [hc] at h; simp at h
  | ok config =>
    rw [hc] at h
    cases hl : Refiller.RefillerClient.login lr with
    | error e =>
      rw [hl] at h
      simp at h
    | ok c =>
      rw [hl] at h
      have hcc : cookie = c := by
        cases hr : Refiller.RefillerClient.request_refill rr with
        | error e =>
          rw [hr] at h
          simp at h
          exact h.1
        | ok success =>
          rw [hr] at h
          cases success with
          | true => simp at h; exact h.1
          | false => simp at h; exact h.1
      subst hcc
      exact ⟨rfl, Refiller.login_ok_nonempty lr cookie hl⟩

theorem C3_witness :
    Refiller.RefillerClient.login
        (Except.ok { status := 200, reason := "OK",
                     headers := [("Set-Cookie", "s=1")] })
      = Except.ok "s=1" ∧ "s=1" ≠ "" :=
  C3_refill_only_after_login
    (some [("username", Refiller.TomlValue.str "u"),
           ("password", Refiller.TomlValue.str "p"),
           ("base_url", Refiller.TomlValue.str "http://x"),
           ("med_id", Refiller.TomlValue.str "aspirin"),
           ("office", Refiller.TomlValue.str "o1")]) "cfg.toml"
    (Except.ok { status := 200, reason := "OK",
                 headers := [("Set-Cookie", "s=1")] })
    (Except.ok { status := 200, reason := "OK", headers := [] })
    "s=1" (Refiller.TomlValue.str "aspirin")
    (by simp [Refiller.main, Refiller.Config.from_toml,
      Refiller.RefillerClient.login, Refiller.RefillerClient.request_refill,
      Refiller.raise_for_status, Refiller.getHeader,
      Refiller.missingOrEmptyFields, Refiller.requiredFields,
      Refiller.fieldMissingOrEmpty, Refiller.lookupField, Refiller.TomlValue.truthy])

/-- C4: whenever configuration loading succeeds (so the client is
constructed), every run of `main` — refill success, refill returning
`false`, and any client exception during login or refill — performs the
`close` call exactly once, and `main` itself finishes without an
escaping exception. -/
theorem C4_close_exactly_once (file : Option (List (String × Refiller.TomlValue)))
    (path : String) (lr rr : Except Refiller.ClientError Refiller.HttpResponse)
    (config : Refiller.Config)
    (h : Refiller.Config.from_toml file path = Except.ok config) :
    ((Refiller.main file path lr rr).1.filter Refiller.Event.isClose).length = 1 ∧
    (Refiller.main file path lr rr).2 = Except.ok () := by
  unfold Refiller.main
  rw [h]
  cases hl : Refiller.RefillerClient.login lr with
  | error e => simp [Refiller.Event.isClose]
  | ok c =>
    cases hr : Refiller.RefillerClient.request_refill rr with
    | error e => simp [Refiller.Event.isClose]
    | ok success =>
      cases success with
      | true => simp [Refiller.Event.isClose]
      | false => simp [Refiller.Event.isClose]

theorem C4_witness :
    Refiller.Config.from_toml
        (some [("username", Refiller.TomlValue.str "u"),
               ("password", Refiller.TomlValue.str "p"),
               ("base_url", Refiller.TomlValue.str "http://x"),
               ("med_id", Refiller.TomlValue.str "aspirin"),
               ("office", Refiller.TomlValue.str "o1")]) "cfg.toml"
      = Except.ok { username := Refiller.TomlValue.str "u",
                    password := Refiller.TomlValue.str "p",
                    base_url := Refiller.TomlValue.str "http://x",
                    med_id := Refiller.TomlValue.str "aspirin",
                    office := Refiller.TomlValue.str "o1" } ∧
    ((Refiller.main
        (some [("username", Refiller.TomlValue.str "u"),
               ("password", Refiller.TomlValue.str "p"),
               ("base_url", Refiller.TomlValue.str "http://x"),
               ("med_id", Refiller.TomlValue.str "aspirin"),
               ("office", Refiller.TomlValue.str "o1")]) "cfg.toml"
        (Except.error (Refiller.ClientError.networkError "connection refused"))
        (Except.ok { status := 200, reason := "OK", headers := [] })).1.filter
        Refiller.Event.isClose).length = 1 :=
  ⟨rfl,
   (C4_close_exactly_once
     (some [("username", Refiller.TomlValue.str "u"),
            ("password", Refiller.TomlValue.str "p"),
            ("base_url", Refiller.TomlValue.str "http://x"),
            ("med_id", Refiller.TomlValue.str "aspirin"),
            ("office", Refiller.TomlValue.str "o1")]) "cfg.toml"
     (Except.error (Refiller.ClientError.networkError "connection refused"))
     (Except.ok { status := 200, reason := "OK", headers := [] })
     { username := Refiller.TomlValue.str "u",
       password := Refiller.TomlValue.str "p",
       base_url := Refiller.TomlValue.str "http://x",
       med_id := Refiller.TomlValue.str "aspirin",
       office := Refiller.TomlValue.str "o1" } rfl).1⟩

/-- C8: when configuration loading fails, the run aborts before any
network activity — the trace holds only the startup log line (no client
construction, no login, no refill, no close) and the configuration error
escapes `main` uncaught. -/
theorem C8_config_error_aborts (file : Option (List (String × Refiller.TomlValue)))
    (path : String) (lr rr : Except Refiller.ClientError Refiller.HttpResponse)
    (e : Refiller.ConfigError)
    (h : Refiller.Config.from_toml file path = Except.error e) :
    (Refiller.main file path lr rr).1
      = [Refiller.Event.logInfo "💊 Starting refiller service..."] ∧
    (Refiller.main file path lr rr).2 = Except.error e := by
  unfold Refiller.main
  rw [h]
  exact ⟨rfl, rfl⟩

theorem C8_witness :
    Refiller.Config.from_toml none "cfg.toml"
      = Except.error (Refiller.ConfigError.fileNotFound "Config file not found at cfg.toml") ∧
    (Refiller.main none "cfg.toml"
        (Except.ok { status := 200, reason := "OK", headers := [("Set-Cookie", "s=1")] })
        (Except.ok { status := 200, reason := "OK", headers := [] })).1
      = [Refiller.Event.logInfo "💊 Starting refiller service..."] ∧
    (Refiller.main none "cfg.toml"
        (Except.ok { status := 200, reason := "OK", headers := [("Set-Cookie", "s=1")] })
        (Except.ok { status := 200, reason := "OK", headers := [] })).2
      = Except.error (Refiller.ConfigError.fileNotFound "Config file not found at cfg.toml") :=
  ⟨rfl,
   (C8_config_error_aborts none "cfg.toml"
     (Except.ok { status := 200, reason := "OK", headers := [("Set-Cookie", "s=1")] })
     (Except.ok { status := 200, reason := "OK", headers := [] })
     (Refiller.ConfigError.fileNotFound "Config file not found at cfg.toml") rfl).1,
   (C8_config_error_aborts none "cfg.toml"
     (Except.ok { status := 200, reason := "OK", headers := [("Set-Cookie", "s=1")] })
     (Except.ok { status := 200, reason := "OK", headers := [] })
     (Refiller.ConfigError.fileNotFound "Config file not found at cfg.toml") rfl).2⟩

/-- C9: whatever client exception occurs — during login or during
refill — the single catch-all handler logs it with the login-failure
template "Login failed: <exception>", the session is still closed, and
`main` finishes without re-raising. -/
theorem C9_catchall_login_wording (file : Option (List (String × Refiller.TomlValue)))
    (path : String) (lr rr : Except Refiller.ClientError Refiller.HttpResponse)
    (config : Refiller.Config) (e : Refiller.ClientError)
    (hc : Refiller.Config.from_toml file path = Except.ok config) :
    (Refiller.RefillerClient.login lr = Except.error e →
      Refiller.Event.logError ("Login failed: " ++ Refiller.ClientError.str e)
        ∈ (Refiller.main file path lr rr).1) ∧
    (∀ cookie, Refiller.RefillerClient.login lr = Except.ok cookie →
      Refiller.RefillerClient.request_refill rr = Except.error e →
      Refiller.Event.logError ("Login failed: " ++ Refiller.ClientError.str e)
        ∈ (Refiller.main file path lr rr).1) ∧
    Refiller.Event.closeCall ∈ (Refiller.main file path lr rr).1 ∧
    (Refiller.main file path lr rr).2 = Except.ok () := by
  unfold Refiller.main
  rw [hc]
  refine ⟨?_, ?_, ?_, ?_⟩
  · intro hl
    rw [hl]
    simp
  · intro cookie hl hr
    rw [hl, hr]
    simp
  · cases hl : Refiller.RefillerClient.login lr with
    | error e2 => simp
    | ok c =>
      cases hr : Refiller.RefillerClient.request_refill rr with
      | error e2 => simp
      | ok success => cases success with
        | true => simp
        | false => simp
  · cases hl : Refiller.RefillerClient.login lr with
    | error e2 => simp
    | ok c =>
      cases hr : Refiller.RefillerClient.request_refill rr with
      | error e2 => simp
      | ok success => cases success with
        | true => simp
        | false => simp

theorem C9_witness :
    Refiller.Config.from_toml
        (some [("username", Refiller.TomlValue.str "u"),
               ("password", Refiller.TomlValue.str "p"),
               ("base_url", Refiller.TomlValue.str "http://x"),
               ("med_id", Refiller.TomlValue.str "aspirin"),
               ("office", Refiller.TomlValue.str "o1")]) "cfg.toml"
      = Except.ok { username := Refiller.TomlValue.str "u",
                    password := Refiller.TomlValue.str "p",
                    base_url := Refiller.TomlValue.str "http://x",
                    med_id := Refiller.TomlValue.str "aspirin",
                    office := Refiller.TomlValue.str "o1" } ∧
    Refiller.RefillerClient.login
        (Except.error (Refiller.ClientError.networkError "connection refused"))
      = Except.error (Refiller.ClientError.networkError "connection refused") ∧
    Refiller.Event.logError
        ("Login failed: "
          ++ Refiller.ClientError.str (Refiller.ClientError.networkError "connection refused"))
      ∈ (Refiller.main
          (some [("username", Refiller.TomlValue.str "u"),
                 ("password", Refiller.TomlValue.str "p"),
                 ("base_url", Refiller.TomlValue.str "http://x"),
                 ("med_id", Refiller.TomlValue.str "aspirin"),
                 ("office", Refiller.TomlValue.str "o1")]) "cfg.toml"
          (Except.error (Refiller.ClientError.networkError "connection refused"))
          (Except.ok { status := 200, reason := "OK", headers := [] })).1 :=
  ⟨rfl, rfl,
   (C9_catchall_login_wording
     (some [("username", Refiller.TomlValue.str "u"),
            ("password", Refiller.TomlValue.str "p"),
            ("base_url", Refiller.TomlValue.str "http://x"),
            ("med_id", Refiller.TomlValue.str "aspirin"),
            ("office", Refiller.TomlValue.str "o1")]) "cfg.toml"
     (Except.error (Refiller.ClientError.networkError "connection refused"))
     (Except.ok { status := 200, reason := "OK", headers := [] })
     { username := Refiller.TomlValue.str "u",
       password := Refiller.TomlValue.str "p",
       base_url := Refiller.TomlValue.str "http://x",
       med_id := Refiller.TomlValue.str "aspirin",
       office := Refiller.TomlValue.str "o1" }
     (Refiller.ClientError.networkError "connection refused") rfl).1 rfl⟩

end Refiller
